import Mathlib

/-!
Verification of the NextBI authentication session manager.

This file gives a shallow embedding of the session-management core of the
repository: the Token Store built on the browser key/value storage
(`src/frontend/src/services/authService.ts`: `getToken`, `setToken`,
`getUser`, `setUser`, `clearAuthData`, `isAuthenticated`, `devLogin`,
`exchangeAzureToken`) and the session controller (`AuthProvider`:
`initializeMsal`, `login`, `logout`, `getAccessToken`, the
`nextbi:auth-changed` handler).  Effects are made explicit: the mutable
browser storage is passed as a value, network calls become `Except`-valued
inputs, and dispatched bus events are collected in a list.
-/

/-! ## Browser key/value storage (localStorage) -/

/-- Durable key/value storage, modelled as an association list.
`getItem`/`setItem`/`removeItem` mirror the browser localStorage API used by
the source. -/
abbrev LocalStorage := List (String × String)

def getItem : LocalStorage → String → Option String
  | [], _ => none
  | (k, v) :: rest, q => if q = k then some v else getItem rest q

def setItem : LocalStorage → String → String → LocalStorage
  | [], k, v => [(k, v)]
  | (k0, v0) :: rest, k, v =>
      if k = k0 then (k, v) :: rest else (k0, v0) :: setItem rest k v

def removeItem : LocalStorage → String → LocalStorage
  | [], _ => []
  | (k0, v0) :: rest, k =>
      if k = k0 then removeItem rest k else (k0, v0) :: removeItem rest k

theorem getItem_setItem_self (st : LocalStorage) (k v : String) :
    getItem (setItem st k v) k = some v := by
  induction st with
  | nil => simp [setItem, getItem]
  | cons hd tl ih =>
      obtain ⟨k0, v0⟩ := hd
      by_cases h : k = k0
      · simp [setItem, getItem, h]
      · simp [setItem, getItem, h, ih]

theorem getItem_setItem_other (st : LocalStorage) (k v q : String) (h : q ≠ k) :
    getItem (setItem st k v) q = getItem st q := by
  induction st with
  | nil => simp [setItem, getItem, h]
  | cons hd tl ih =>
      obtain ⟨k0, v0⟩ := hd
      by_cases hk : k = k0
      · subst hk
        simp [setItem, getItem, h]
      · by_cases hq : q = k0
        · simp [setItem, getItem, hk, hq]
        · simp [setItem, getItem, hk, hq, ih]

theorem getItem_removeItem_self (st : LocalStorage) (k : String) :
    getItem (removeItem st k) k = none := by
  induction st with
  | nil => simp [removeItem, getItem]
  | cons hd tl ih =>
      obtain ⟨k0, v0⟩ := hd
      by_cases h : k = k0
      · subst h
        simp [removeItem, ih]
      · simp [removeItem, getItem, h, ih]

theorem getItem_removeItem_other (st : LocalStorage) (k q : String) (h : q ≠ k) :
    getItem (removeItem st k) q = getItem st q := by
  induction st with
  | nil => simp [removeItem]
  | cons hd tl ih =>
      obtain ⟨k0, v0⟩ := hd
      by_cases hk : k = k0
      · subst hk
        simp [removeItem, getItem, h, ih]
      · by_cases hq : q = k0
        · simp [removeItem, getItem, hk, hq]
        · simp [removeItem, getItem, hk, hq, ih]

/-! ## Storage keys

`TOKEN_KEY` and `USER_KEY` are named constants in the source; the
auth-method tag key appears inline as a string literal in the
controller (`localStorage.setItem("nextbi_auth_method", ...)`). -/

def TOKEN_KEY : String := "nextbi_auth_token"
def USER_KEY : String := "nextbi_user_data"
def METHOD_KEY : String := "nextbi_auth_method"

/-! ## User records and their JSON serialization

The source stores the user record with `JSON.stringify` and reads it back
with `JSON.parse` (returning null when parsing fails).  We model user
records with the shape given by the spec data model
(`\x7b id, displayName, email, photoUrl? \x7d`) and give an executable
model of the serializer and parser for objects of exactly this shape,
including escaping of quotes and backslashes inside field values. -/

structure UserRecord where
  id : String
  displayName : String
  email : String
  photoUrl : Option String
deriving DecidableEq, Repr

/-- The double-quote character. -/
def quoteC : Char := Char.ofNat 34

/-- The backslash character. -/
def backslashC : Char := Char.ofNat 92

/-- The opening-brace character. -/
def lbrace : Char := Char.ofNat 123

/-- The closing-brace character. -/
def rbrace : Char := Char.ofNat 125

/-- JSON string-body escaping: quotes and backslashes are preceded by a
backslash, all other characters pass through. -/
def escapeChars : List Char → List Char
  | [] => []
  | c :: cs =>
      if c = quoteC ∨ c = backslashC then backslashC :: c :: escapeChars cs
      else c :: escapeChars cs

/-- A JSON string literal: the escaped body surrounded by quotes. -/
def strLit (s : String) : List Char := quoteC :: (escapeChars s.data ++ [quoteC])

/-- Key prefix of a JSON object member: the quoted key followed by a colon. -/
def keyPre (k : String) : List Char := quoteC :: (k.data ++ [quoteC, ':'])

/-- The characters of the JSON literal null. -/
def nullChars : List Char := ['n', 'u', 'l', 'l']

/-- Model of JSON.stringify on a user record: emits the four members in
declaration order, photoUrl as null when absent. -/
def stringifyUserChars (u : UserRecord) : List Char :=
  (lbrace :: keyPre "id") ++ strLit u.id ++
    ((',' :: keyPre "displayName") ++ strLit u.displayName ++
      ((',' :: keyPre "email") ++ strLit u.email ++
        ((',' :: keyPre "photoUrl") ++
          (match u.photoUrl with
            | some p => strLit p ++ [rbrace]
            | none => nullChars ++ [rbrace]))))

def stringifyUser (u : UserRecord) : String := String.mk (stringifyUserChars u)

/-- Strip an expected literal prefix, returning the remainder. -/
def dropPre : List Char → List Char → Option (List Char)
  | [], l => some l
  | _ :: _, [] => none
  | p :: ps, c :: cs => if c = p then dropPre ps cs else none

/-- Parse the body of a JSON string up to the closing quote, undoing
escaping; returns the decoded body and the remainder after the quote. -/
def parseStrBody : List Char → Option (List Char × List Char)
  | [] => none
  | c :: cs =>
      if c = backslashC then
        match cs with
        | [] => none
        | d :: ds =>
            match parseStrBody ds with
            | none => none
            | some (s, r) => some (d :: s, r)
      else if c = quoteC then some ([], cs)
      else
        match parseStrBody cs with
        | none => none
        | some (s, r) => some (c :: s, r)

/-- Parse a JSON string literal (opening quote, body, closing quote). -/
def parseQuoted : List Char → Option (List Char × List Char)
  | [] => none
  | c :: cs => if c = quoteC then parseStrBody cs else none

/-- Parse the photoUrl member value and the closing brace: either a string
literal or the literal null. -/
def parsePhoto (r : List Char) (idv dnv emv : List Char) : Option UserRecord :=
  if r.head? = some quoteC then
    (parseQuoted r).bind fun p =>
      if p.2 = [rbrace] then
        some ⟨String.mk idv, String.mk dnv, String.mk emv, some (String.mk p.1)⟩
      else none
  else if r = nullChars ++ [rbrace] then
    some ⟨String.mk idv, String.mk dnv, String.mk emv, none⟩
  else none

/-- Model of JSON.parse specialised to the user-record object shape stored
by the source; yields none on any malformed input. -/
def parseUserChars (l : List Char) : Option UserRecord :=
  (dropPre (lbrace :: keyPre "id") l).bind fun r1 =>
  (parseQuoted r1).bind fun p1 =>
  (dropPre (',' :: keyPre "displayName") p1.2).bind fun r2 =>
  (parseQuoted r2).bind fun p2 =>
  (dropPre (',' :: keyPre "email") p2.2).bind fun r3 =>
  (parseQuoted r3).bind fun p3 =>
  (dropPre (',' :: keyPre "photoUrl") p3.2).bind fun r4 =>
  parsePhoto r4 p1.1 p2.1 p3.1

def parseUser (s : String) : Option UserRecord := parseUserChars s.data

theorem dropPre_append (p r : List Char) : dropPre p (p ++ r) = some r := by
  induction p with
  | nil => rfl
  | cons a ps ih => simp [dropPre, ih]

theorem dropPre_cons_append (c : Char) (p r : List Char) :
    dropPre (c :: p) (c :: (p ++ r)) = some r := by
  simp [dropPre, dropPre_append]

theorem quoteC_ne_backslashC : quoteC ≠ backslashC := by decide

theorem parseStrBody_escape (s rest : List Char) :
    parseStrBody (escapeChars s ++ (quoteC :: rest)) = some (s, rest) := by
  induction s with
  | nil =>
      rw [show escapeChars [] = [] from rfl, List.nil_append, parseStrBody.eq_def]
      simp [quoteC_ne_backslashC]
  | cons c cs ih =>
      by_cases h : c = quoteC ∨ c = backslashC
      · have he : escapeChars (c :: cs) = backslashC :: c :: escapeChars cs := by
          simp [escapeChars, h]
        rw [he, List.cons_append, List.cons_append, parseStrBody.eq_def]
        simp [ih]
      · push_neg at h
        have he : escapeChars (c :: cs) = c :: escapeChars cs := by
          simp [escapeChars, h.1, h.2]
        rw [he, List.cons_append, parseStrBody.eq_def]
        simp [h.1, h.2, ih]

theorem parseQuoted_strLit (s : String) (rest : List Char) :
    parseQuoted (strLit s ++ rest) = some (s.data, rest) := by
  have h : strLit s ++ rest = quoteC :: (escapeChars s.data ++ (quoteC :: rest)) := by
    simp [strLit]
  rw [h]
  simp [parseQuoted, parseStrBody_escape]

theorem mk_data_eq (s : String) : String.mk s.data = s := rfl

theorem strLit_head (s : String) (r : List Char) :
    (strLit s ++ r).head? = some quoteC := by
  simp [strLit]

theorem quoteC_ne_n : ¬ ('n' = quoteC) := by decide

theorem parsePhoto_strLit (p : String) (idv dnv emv : List Char) :
    parsePhoto (strLit p ++ [rbrace]) idv dnv emv =
      some ⟨String.mk idv, String.mk dnv, String.mk emv, some p⟩ := by
  have hh : (strLit p ++ [rbrace]).head? = some quoteC := strLit_head p [rbrace]
  unfold parsePhoto
  rw [if_pos hh, parseQuoted_strLit]
  simp [mk_data_eq]

theorem parsePhoto_null (idv dnv emv : List Char) :
    parsePhoto (nullChars ++ [rbrace]) idv dnv emv =
      some ⟨String.mk idv, String.mk dnv, String.mk emv, none⟩ := by
  simp [parsePhoto, nullChars, quoteC_ne_n]

/-- Serializer/parser roundtrip: parsing a stringified user record gives
back the record. -/
theorem parseUser_stringifyUser (u : UserRecord) :
    parseUser (stringifyUser u) = some u := by
  obtain ⟨uid, udn, uem, upu⟩ := u
  show parseUserChars (stringifyUserChars ⟨uid, udn, uem, upu⟩) = _
  cases upu with
  | none =>
      simp [stringifyUserChars, parseUserChars, List.append_assoc,
        dropPre_cons_append, parseQuoted_strLit, parsePhoto_null, mk_data_eq]
  | some p =>
      simp [stringifyUserChars, parseUserChars, List.append_assoc,
        dropPre_cons_append, parseQuoted_strLit, parsePhoto_strLit, mk_data_eq]

/-! ## Token Store operations (authService.ts) -/

/-- authService.getToken: read the backend JWT from storage. -/
def getToken (st : LocalStorage) : Option String := getItem st TOKEN_KEY

/-- authService.setToken: write the backend JWT to storage. -/
def setToken (st : LocalStorage) (token : String) : LocalStorage :=
  setItem st TOKEN_KEY token

/-- authService.getUser: read and JSON-parse the stored user record;
a missing key or a parse failure yields none (the source returns null). -/
def getUser (st : LocalStorage) : Option UserRecord :=
  (getItem st USER_KEY).bind parseUser

/-- authService.setUser: JSON-stringify and store a user record. -/
def setUser (st : LocalStorage) (user : UserRecord) : LocalStorage :=
  setItem st USER_KEY (stringifyUser user)

/-- Storing a possibly-absent user value: the source passes
`response.data.data.user` straight to `setUser`; when it is undefined,
`JSON.stringify` yields the undefined value and the storage API coerces it
to the literal text undefined. -/
def setUserAny (st : LocalStorage) (user : Option UserRecord) : LocalStorage :=
  setItem st USER_KEY (match user with
    | some u => stringifyUser u
    | none => "undefined")

/-- authService.clearAuthData: remove the token key then the user key. -/
def clearAuthData (st : LocalStorage) : LocalStorage :=
  removeItem (removeItem st TOKEN_KEY) USER_KEY

/-- JavaScript double-negation truthiness of a nullable string: null and
the empty string are falsy, every other string is truthy. -/
def truthyStr : Option String → Bool
  | none => false
  | some s => !(s == "")

/-- authService.isAuthenticated: double-negation of getToken. -/
def isAuthenticated (st : LocalStorage) : Bool := truthyStr (getToken st)

theorem TOKEN_KEY_ne_USER_KEY : TOKEN_KEY ≠ USER_KEY := by decide

theorem METHOD_KEY_ne_TOKEN_KEY : METHOD_KEY ≠ TOKEN_KEY := by decide

theorem METHOD_KEY_ne_USER_KEY : METHOD_KEY ≠ USER_KEY := by decide

theorem getToken_setToken (st : LocalStorage) (t : String) :
    getToken (setToken st t) = some t :=
  getItem_setItem_self st TOKEN_KEY t

theorem getToken_setUser (st : LocalStorage) (u : UserRecord) :
    getToken (setUser st u) = getToken st :=
  getItem_setItem_other st USER_KEY (stringifyUser u) TOKEN_KEY TOKEN_KEY_ne_USER_KEY

theorem getUser_setUser (st : LocalStorage) (u : UserRecord) :
    getUser (setUser st u) = some u := by
  unfold getUser setUser
  rw [getItem_setItem_self]
  simp [parseUser_stringifyUser]

theorem getToken_clearAuthData (st : LocalStorage) :
    getToken (clearAuthData st) = none := by
  unfold getToken clearAuthData
  rw [getItem_removeItem_other _ _ _ (Ne.symm TOKEN_KEY_ne_USER_KEY).symm,
    getItem_removeItem_self]

theorem getUser_clearAuthData (st : LocalStorage) :
    getUser (clearAuthData st) = none := by
  unfold getUser clearAuthData
  rw [getItem_removeItem_self]
  rfl

theorem getItem_clearAuthData_method (st : LocalStorage) :
    getItem (clearAuthData st) METHOD_KEY = getItem st METHOD_KEY := by
  unfold clearAuthData
  rw [getItem_removeItem_other _ _ _ METHOD_KEY_ne_USER_KEY,
    getItem_removeItem_other _ _ _ METHOD_KEY_ne_TOKEN_KEY]

/-! ## Backend exchange clients (authService.ts)

The network boundary is explicit: each exchange function takes the outcome
of its single axios POST as an `Except` value — a network error or the
parsed response body.  Dispatched `nextbi:auth-changed` events are returned
in a list. -/

/-- Parsed body of a backend auth response: the data member with its token
and user fields. -/
structure RespData where
  token : Option String
  user : Option UserRecord
deriving DecidableEq, Repr

/-- Parsed backend auth response body
(`\x7b success, data?, error? \x7d`). -/
structure ExchangeResponse where
  success : Bool
  data : Option RespData
  error : Option String
deriving DecidableEq, Repr

/-- A failed network call: the optional parsed response body attached to
the error, plus the error message. -/
structure NetError where
  responseData : Option ExchangeResponse
  message : String
deriving DecidableEq, Repr

/-- A `nextbi:auth-changed` CustomEvent detail: `\x7b method, user \x7d`. -/
structure BusEvent where
  method : String
  user : Option UserRecord
deriving DecidableEq, Repr

/-- Caller-supplied account info passed to exchangeAzureToken. -/
structure UserInfo where
  id : String
  displayName : String
  email : String
  photoUrl : Option String
deriving DecidableEq, Repr

/-- An error thrown out of exchangeAzureToken: a synthesized Error with a
message, the TypeError raised when the success response carries no data
member, or the original network error rethrown. -/
inductive ExchangeErr
  | thrown (msg : String)
  | typeError
  | network (e : NetError)
deriving DecidableEq, Repr

/-- authService.exchangeAzureToken: on a success response carrying a truthy
token, stores the token and the response user (or a record synthesized from
the caller-supplied info when the response has no user) and returns the
token; otherwise throws.  It dispatches no bus event. -/
def exchangeAzureToken (st : LocalStorage) (userInfo : UserInfo)
    (resp : Except NetError ExchangeResponse) :
    LocalStorage × List BusEvent × Except ExchangeErr String :=
  match resp with
  | .error e => (st, [], .error (.network e))
  | .ok r =>
      if r.success then
        match r.data with
        | none => (st, [], .error .typeError)
        | some d =>
            match d.token with
            | some token =>
                if token == "" then
                  (st, [], .error (.thrown "Failed to get backend token"))
                else
                  let userData := d.user.getD
                    ⟨userInfo.id, userInfo.displayName, userInfo.email, none⟩
                  (setUser (setToken st token) userData, [], .ok token)
            | none => (st, [], .error (.thrown "Failed to get backend token"))
      else (st, [], .error (.thrown "Failed to get backend token"))

/-- The error member of a devLogin failure result: the raw backend
response body, or a network error message when no body is attached. -/
inductive DevErr
  | payload (r : ExchangeResponse)
  | message (m : String)
deriving DecidableEq, Repr

/-- The object returned by devLogin. -/
structure DevLoginResult where
  success : Bool
  token : Option String
  user : Option UserRecord
  error : Option DevErr
deriving DecidableEq, Repr

/-- authService.devLogin: on a success response carrying a truthy token,
stores the token and user, dispatches a `nextbi:auth-changed` event with
detail `\x7b method := dev, user \x7d`, and returns success; otherwise
returns a failure result carrying the raw backend payload (or the network
error data/message). -/
def devLogin (st : LocalStorage) (resp : Except NetError ExchangeResponse) :
    LocalStorage × List BusEvent × DevLoginResult :=
  match resp with
  | .error e =>
      (st, [], ⟨false, none, none, some (match e.responseData with
        | some p => DevErr.payload p
        | none => DevErr.message e.message)⟩)
  | .ok r =>
      match r.data with
      | some d =>
          match d.token with
          | some token =>
              if r.success && !(token == "") then
                (setUserAny (setToken st token) d.user,
                  [⟨"dev", d.user⟩],
                  ⟨true, some token, d.user, none⟩)
              else (st, [], ⟨false, none, none, some (DevErr.payload r)⟩)
          | none => (st, [], ⟨false, none, none, some (DevErr.payload r)⟩)
      | none => (st, [], ⟨false, none, none, some (DevErr.payload r)⟩)

/-! ## Session controller (AuthProvider) -/

/-- The React session state held by the controller. -/
structure SessionState where
  isAuthenticated : Bool
  userData : Option UserRecord
  loading : Bool
  error : Option String
deriving DecidableEq, Repr

/-- The controller's initial state: unauthenticated, loading. -/
def initialState : SessionState :=
  { isAuthenticated := false, userData := none, loading := true, error := none }

/-- A provider (MSAL) account handle with the identity fields the exchange
sends to the backend. -/
structure Account where
  id : String
  displayName : String
  email : String
  photoUrl : Option String
deriving DecidableEq, Repr

/-- Modelled from the spec: `getStoredSession` is imported from
`services/loginService`, which is not under src/.  Per the spec, startup
resolution attempts to restore an existing Token Store session, so this
returns the persisted backend session token. -/
def getStoredSession (st : LocalStorage) : Option String := getToken st

/-- Modelled from the spec: `loginWithAzure` is imported from
`services/loginService`, which is not under src/.  Per the spec it
performs the provider-identity exchange against the backend, storing the
session on success; it is modelled by delegating to the in-src
`exchangeAzureToken` and reporting `\x7b success, user \x7d`. -/
def loginWithAzure (st : LocalStorage) (acct : Account)
    (resp : Except NetError ExchangeResponse) :
    LocalStorage × Bool × Option UserRecord :=
  match exchangeAzureToken st ⟨acct.id, acct.displayName, acct.email, acct.photoUrl⟩ resp with
  | (st1, _, Except.ok _) => (st1, true, getUser st1)
  | (_, _, Except.error _) => (st, false, none)

/-- AuthProvider.exchangeTokenForJWT: exchange a provider account for a
backend session; on success record the msal auth method, clear the error
and navigate home; on failure (or a thrown error, which it catches) set
the backend-authentication error message. -/
def exchangeTokenForJWT (s : SessionState) (st : LocalStorage) (acct : Account)
    (resp : Except NetError ExchangeResponse) :
    SessionState × LocalStorage × Option String :=
  match loginWithAzure st acct resp with
  | (st1, true, user) =>
      ({ s with userData := user, isAuthenticated := true, error := none },
        setItem st1 METHOD_KEY "msal", some "/")
  | (_, false, _) =>
      ({ s with error := some "Failed to authenticate with backend." }, st, none)

/-- AuthProvider `nextbi:auth-changed` listener: re-reads the stored user
and recomputes the session fields from it alone. -/
def authChangedHandler (st : LocalStorage) (s : SessionState) : SessionState :=
  match getUser st with
  | some u => { s with userData := some u, isAuthenticated := true, error := none }
  | none => { s with userData := none, isAuthenticated := false }

/-- Events observable during a logout run, in order. -/
inductive LEvent
  | clearStore
  | setUnauthenticated
  | providerSignOut
  | navigateLogin
deriving DecidableEq, Repr

/-- Result of a logout run. -/
structure LogoutResult where
  storage : LocalStorage
  state : SessionState
  events : List LEvent
  signOutFailed : Bool
deriving DecidableEq, Repr

/-- AuthProvider.logout: read the recorded auth method, clear the Token
Store and the in-memory session unconditionally, then attempt the provider
popup sign-out only when the method is msal and an instance exists; a
sign-out rejection is caught and only logged, and the finally block always
navigates to the login view. -/
def logout (st : LocalStorage) (s : SessionState)
    (msalInstance : Bool) (signOutRejects : Bool) : LogoutResult :=
  let method := getItem st METHOD_KEY
  let attempt := decide (method = some "msal") && msalInstance
  { storage := clearAuthData st,
    state := { s with isAuthenticated := false, userData := none },
    events := [LEvent.clearStore, LEvent.setUnauthenticated] ++
      (if attempt then [LEvent.providerSignOut] else []) ++ [LEvent.navigateLogin],
    signOutFailed := attempt && signOutRejects }

/-- Outcome of a silent token acquisition. -/
inductive TokenOutcome
  | ok (tok : String)
  | interactionRequired
  | otherError
deriving DecidableEq, Repr

/-- Result of getAccessToken: the returned value (or a propagated popup
rejection), which account silent acquisition was attempted for, and
whether the popup fallback ran. -/
structure TokenResult where
  result : Except Unit (Option String)
  silentAccount : Option Account
  popupCalled : Bool

/-- AuthProvider.getAccessToken: dev mode returns the stored backend
token; provider mode requires an instance and a cached account, tries
silent acquisition for the first account, falls back to the popup exactly
on the interaction-required error, and returns null on any other silent
failure. -/
def getAccessToken (devEnabled : Bool) (st : LocalStorage) (msalInstance : Bool)
    (accounts : List Account) (silent : TokenOutcome)
    (popup : Except Unit String) : TokenResult :=
  if devEnabled then ⟨.ok (getToken st), none, false⟩
  else if msalInstance = false then ⟨.ok none, none, false⟩
  else
    match accounts with
    | [] => ⟨.ok none, none, false⟩
    | a :: _ =>
        match silent with
        | .ok t => ⟨.ok (some t), some a, false⟩
        | .interactionRequired =>
            match popup with
            | .ok t => ⟨.ok (some t), some a, true⟩
            | .error e => ⟨.error e, some a, true⟩
        | .otherError => ⟨.ok none, some a, false⟩

/-- Substring test over character lists, for the message-content error
classification. -/
def isPre : List Char → List Char → Bool
  | [], _ => true
  | _ :: _, [] => false
  | p :: ps, c :: cs => p = c && isPre ps cs

def subList (pat : List Char) : List Char → Bool
  | [] => pat.isEmpty
  | c :: cs => isPre pat (c :: cs) || subList pat cs

/-- AuthProvider.getFriendlyAuthError: classify a provider error message by
content into tenant-mismatch guidance, a cancelled/blocked retry hint, the
raw message, or nothing when the message is empty. -/
def getFriendlyAuthError (msg : String) : Option String :=
  if subList "AADSTS50020".data msg.data then
    some "Account not found in tenant. Sign in with an account in the tenant or ask the tenant admin to invite your account as a guest. For local testing enable DEV_AUTH or use an account from the tenant."
  else if subList "user_cancelled".data msg.data || subList "Popup window closed".data msg.data then
    some "Sign-in was cancelled or blocked by the browser. Try using the \"Sign in\" button again (redirect) or enable Dev sign-in for local testing."
  else if msg = "" then none
  else some msg

/-- Environment of one initializeMsal run: the dev-bypass decision and
configured identity, and the outcome of each fallible external step. -/
structure InitEnv where
  devEnabled : Bool
  devEmail : String
  devDisplay : String
  devResp : Except NetError ExchangeResponse
  msalAlready : Bool
  initThrows : Bool
  redirect : Except Unit (Option Account)
  redirectResp : Except NetError ExchangeResponse
  accounts : List Account
  cachedResp : Except NetError ExchangeResponse

/-- Result of one initializeMsal run. -/
structure InitResult where
  state : SessionState
  storage : LocalStorage
  devCalls : List (String × String)
  msalConstructed : Bool
  navigated : Option String

/-- AuthProvider.initializeMsal: in dev mode restore the stored session or
perform exactly one devLogin with the configured identity; otherwise
construct and initialize the MSAL client, process a pending redirect
account, restore a persisted session, or exchange the first cached
account.  Thrown initialization errors are caught into the error field and
the finally block ends every path with loading false. -/
def initializeMsal (env : InitEnv) (st : LocalStorage) : InitResult :=
  if env.devEnabled then
    if truthyStr (getStoredSession st) && (getUser st).isSome then
      { state := { initialState with isAuthenticated := true, userData := getUser st, loading := false },
        storage := st, devCalls := [], msalConstructed := false, navigated := none }
    else
      match devLogin st env.devResp with
      | (st1, _, res) =>
          if res.success then
            { state := { initialState with isAuthenticated := true, userData := res.user, loading := false },
              storage := setItem st1 METHOD_KEY "dev",
              devCalls := [(env.devEmail, env.devDisplay)],
              msalConstructed := false, navigated := none }
          else
            { state := { initialState with error := some "Development login failed", loading := false },
              storage := st1, devCalls := [(env.devEmail, env.devDisplay)],
              msalConstructed := false, navigated := none }
  else if env.msalAlready then
    { state := { initialState with loading := false }, storage := st,
      devCalls := [], msalConstructed := false, navigated := none }
  else if env.initThrows then
    { state := { initialState with error := some "Failed to initialize authentication.", loading := false },
      storage := st, devCalls := [], msalConstructed := true, navigated := none }
  else
    match env.redirect with
    | .error _ =>
        { state := { initialState with error := some "Failed to initialize authentication.", loading := false },
          storage := st, devCalls := [], msalConstructed := true, navigated := none }
    | .ok (some acct) =>
        match exchangeTokenForJWT initialState st acct env.redirectResp with
        | (s1, st1, nav) =>
            { state := { s1 with loading := false }, storage := st1,
              devCalls := [], msalConstructed := true, navigated := nav }
    | .ok none =>
        if truthyStr (getStoredSession st) && (getUser st).isSome then
          { state := { initialState with isAuthenticated := true, userData := getUser st, loading := false },
            storage := st, devCalls := [], msalConstructed := true, navigated := none }
        else
          match env.accounts with
          | [] =>
              { state := { initialState with loading := false }, storage := st,
                devCalls := [], msalConstructed := true, navigated := none }
          | a :: _ =>
              match exchangeTokenForJWT initialState st a env.cachedResp with
              | (s1, st1, nav) =>
                  { state := { s1 with loading := false }, storage := st1,
                    devCalls := [], msalConstructed := true, navigated := nav }

/-- Environment of one login run. -/
structure LoginEnv where
  devEnabled : Bool
  devEmail : String
  devDisplay : String
  devResp : Except NetError ExchangeResponse
  msalInstance : Bool
  msalInitialized : Bool
  accounts : List Account
  cachedResp : Except NetError ExchangeResponse
  redirectThrows : Bool
  popup : Except String (Option Account)
  popupResp : Except NetError ExchangeResponse

/-- AuthProvider.login: dev mode runs devLogin and navigates home on
success; provider mode requires an instance and completed initialization
(after the bounded wait), exchanges a cached account when one exists, and
otherwise starts the redirect flow, falling back to the popup flow — whose
errors go through the message classification.  The finally block ends
every path with loading false. -/
def login (env : LoginEnv) (st : LocalStorage) (s : SessionState) :
    SessionState × LocalStorage × Option String :=
  if env.devEnabled then
    match devLogin st env.devResp with
    | (st1, _, res) =>
        if res.success then
          ({ s with userData := res.user, isAuthenticated := true, error := none, loading := false },
            setItem st1 METHOD_KEY "dev", some "/")
        else
          ({ s with error := some "Development login failed", loading := false }, st1, none)
  else if env.msalInstance = false then
    ({ s with error := some "Authentication not initialized yet. Please wait a moment.", loading := false }, st, none)
  else if env.msalInitialized = false then
    ({ s with error := some "Authentication not initialized", loading := false }, st, none)
  else
    match env.accounts with
    | a :: _ =>
        match exchangeTokenForJWT { s with error := none, loading := true } st a
            env.cachedResp with
        | (s1, st1, nav) => ({ s1 with loading := false }, st1, nav)
    | [] =>
        if env.redirectThrows = false then
          ({ s with error := none, loading := false }, st, none)
        else
          match env.popup with
          | .ok (some acct) =>
              match exchangeTokenForJWT { s with error := none, loading := true } st acct
                  env.popupResp with
              | (s1, st1, nav) => ({ s1 with loading := false }, st1, nav)
          | .ok none =>
              ({ s with error := some "No account information returned.", loading := false },
                st, none)
          | .error msg =>
              ({ s with error := some ((getFriendlyAuthError msg).getD "Login failed."), loading := false }, st, none)

/-! ## Claims -/

/-- Claim C9: writing a token and user record to the Token Store
(setToken then setUser) and reading them back yields the same pair, and
clearAuthData followed by the same reads yields nothing for both, for
every token string and user record. -/
theorem C9_token_store_roundtrip (st : LocalStorage) (t : String) (u : UserRecord) :
    getToken (setUser (setToken st t) u) = some t ∧
    getUser (setUser (setToken st t) u) = some u ∧
    getToken (clearAuthData st) = none ∧
    getUser (clearAuthData st) = none := by
  refine ⟨?_, getUser_setUser _ u, getToken_clearAuthData st, getUser_clearAuthData st⟩
  rw [getToken_setUser, getToken_setToken]

/-- A sample user record for concrete counterexamples. -/
def uEx : UserRecord := ⟨"1", "Dev", "dev@local.test", none⟩

/-- Claim C1, counterexample: with a non-empty token stored but no user
record, isAuthenticated() reports true; and with a user record stored but
no token, the auth-changed recomputation reports authenticated.  Both
contradict the claimed two-sided invariant. -/
theorem C1_counterexample :
    (isAuthenticated (setToken [] "abc") = true ∧
      getUser (setToken [] "abc") = none) ∧
    ((authChangedHandler (setUser [] uEx) initialState).isAuthenticated = true ∧
      getToken (setUser [] uEx) = none) := by
  refine ⟨⟨by decide, by decide⟩, ?_, ?_⟩
  · simp [authChangedHandler, getUser_setUser]
  · rw [getToken_setUser]
    decide

/-- Claim C1 as amended: isAuthenticated() reports true iff the store
holds a non-empty session token, with no requirement on the user record;
and the auth-changed recomputation reports authenticated iff the store
holds a parseable user record, with no requirement on the token. -/
theorem C1_amended_auth_checks (st : LocalStorage) (s : SessionState) :
    (isAuthenticated st = true ↔ ∃ t, getToken st = some t ∧ t ≠ "") ∧
    ((authChangedHandler st s).isAuthenticated = true ↔ (getUser st).isSome) := by
  constructor
  · cases h : getToken st with
    | none => simp [isAuthenticated, truthyStr, h]
    | some t => simp [isAuthenticated, truthyStr, h]
  · cases h : getUser st with
    | none => simp [authChangedHandler, h]
    | some u => simp [authChangedHandler, h]

/-- Storage holding all three persisted keys, for the logout counterexample. -/
def stFull : LocalStorage := [(TOKEN_KEY, "t"), (USER_KEY, "u"), (METHOD_KEY, "dev")]

/-- Claim C2, counterexample: after logout() finishes its local teardown
the auth-method tag is still present in durable storage — the claim that
all three persisted keys are absent fails. -/
theorem C2_counterexample :
    getItem (logout stFull initialState false false).storage METHOD_KEY = some "dev" ∧
    ¬ getItem (logout stFull initialState false false).storage METHOD_KEY = none := by
  decide

/-- Claim C2 as amended: after logout() the session token and the user
record are absent from durable storage, but the auth-method tag is left
exactly as it was before the call. -/
theorem C2_amended_logout_storage (st : LocalStorage) (s : SessionState)
    (mi rej : Bool) :
    getToken (logout st s mi rej).storage = none ∧
    getUser (logout st s mi rej).storage = none ∧
    getItem (logout st s mi rej).storage METHOD_KEY = getItem st METHOD_KEY := by
  exact ⟨getToken_clearAuthData st, getUser_clearAuthData st,
    getItem_clearAuthData_method st⟩

/-- Claim C5: logout() clears the Token Store and resets the in-memory
session unconditionally, with the store teardown first in the event order;
the provider sign-out appears in the run only when the recorded auth
method is msal; and the run always ends with the navigation to the login
view, for every sign-out outcome. -/
theorem C5_logout_order (st : LocalStorage) (s : SessionState) (mi rej : Bool) :
    getToken (logout st s mi rej).storage = none ∧
    getUser (logout st s mi rej).storage = none ∧
    (logout st s mi rej).state.isAuthenticated = false ∧
    (logout st s mi rej).state.userData = none ∧
    (logout st s mi rej).events.head? = some LEvent.clearStore ∧
    (LEvent.providerSignOut ∈ (logout st s mi rej).events →
      getItem st METHOD_KEY = some "msal") ∧
    (logout st s mi rej).events.getLast? = some LEvent.navigateLogin := by
  refine ⟨getToken_clearAuthData st, getUser_clearAuthData st, rfl, rfl, ?_, ?_, ?_⟩
  · by_cases h : (decide (getItem st METHOD_KEY = some "msal") && mi) = true
    · simp [logout, h]
    · simp [logout, h]
  · by_cases h : (decide (getItem st METHOD_KEY = some "msal") && mi) = true
    · intro _
      have := (Bool.and_eq_true _ _).mp h
      exact of_decide_eq_true this.1
    · intro hmem
      simp [logout, h] at hmem
  · by_cases h : (decide (getItem st METHOD_KEY = some "msal") && mi) = true
    · simp [logout, h]
    · simp [logout, h]

/-- Storage recording a provider login, for the C5 witness. -/
def stMsal : LocalStorage := [(METHOD_KEY, "msal")]

theorem C5_logout_order_witness :
    getToken (logout stMsal initialState true true).storage = none ∧
    getItem stMsal METHOD_KEY = some "msal" := by
  exact ⟨(C5_logout_order stMsal initialState true true).1,
    (C5_logout_order stMsal initialState true true).2.2.2.2.2.1 (by decide)⟩

/-- Claim C3, counterexample: a successful provider exchange
(exchangeAzureToken with a success response carrying a token) returns the
token but dispatches no auth-changed notification — the event list of the
run is empty, contradicting the claim that both exchange functions emit
the notification. -/
theorem C3_counterexample :
    (exchangeAzureToken [] ⟨"i", "d", "e", none⟩
        (Except.ok ⟨true, some ⟨some "tok", none⟩, none⟩)).2.2 = Except.ok "tok" ∧
    (exchangeAzureToken [] ⟨"i", "d", "e", none⟩
        (Except.ok ⟨true, some ⟨some "tok", none⟩, none⟩)).2.1 = [] :=
  ⟨rfl, rfl⟩

/-- Claim C3 as amended: on a successful exchange both functions write the
token and user to the Token Store before returning, and devLogin emits the
auth-changed notification carrying its method tag and user, but
exchangeAzureToken emits no notification. -/
theorem C3_amended_exchange_events (st stD : LocalStorage) (ui : UserInfo)
    (t : String) (uOpt : Option UserRecord) (u : UserRecord) (e : Option String)
    (ht : t ≠ "") :
    exchangeAzureToken st ui (Except.ok ⟨true, some ⟨some t, uOpt⟩, e⟩) =
      (setUser (setToken st t) (uOpt.getD ⟨ui.id, ui.displayName, ui.email, none⟩),
        [], Except.ok t) ∧
    devLogin stD (Except.ok ⟨true, some ⟨some t, some u⟩, e⟩) =
      (setUserAny (setToken stD t) (some u), [⟨"dev", some u⟩],
        ⟨true, some t, some u, none⟩) := by
  have hb : (t == "") = false := by simp [ht]
  constructor
  · simp [exchangeAzureToken, hb]
  · simp [devLogin, hb]

theorem C3_amended_exchange_events_witness :
    devLogin [] (Except.ok ⟨true, some ⟨some "tok", some uEx⟩, none⟩) =
      (setUserAny (setToken [] "tok") (some uEx), [⟨"dev", some uEx⟩],
        ⟨true, some "tok", some uEx, none⟩) :=
  (C3_amended_exchange_events [] [] ⟨"i", "d", "e", none⟩ "tok" none uEx none
    (by decide)).2

/-- Claim C4, counterexample: on a success-false response carrying the
backend error payload, exchangeAzureToken does not propagate that payload:
it throws the synthesized Error with message Failed to get backend token,
which carries no payload. -/
theorem C4_counterexample :
    (exchangeAzureToken [] ⟨"i", "d", "e", none⟩
        (Except.ok ⟨false, none, some "boom"⟩)).2.2 =
      Except.error (ExchangeErr.thrown "Failed to get backend token") := rfl

/-- Claim C4 as amended: on every failed exchange nothing is written to
the Token Store and no event is emitted; devLogin propagates the raw
backend payload (the response body on success-false, the attached response
data or message on a network error), while exchangeAzureToken rethrows a
network error unmodified but replaces a success-false response with the
synthesized Failed-to-get-backend-token error. -/
theorem C4_amended_failure_paths (st stD : LocalStorage) (ui : UserInfo)
    (d : Option RespData) (e : Option String) (nerr : NetError) :
    exchangeAzureToken st ui (Except.error nerr) =
      (st, [], Except.error (ExchangeErr.network nerr)) ∧
    exchangeAzureToken st ui (Except.ok ⟨false, d, e⟩) =
      (st, [], Except.error (ExchangeErr.thrown "Failed to get backend token")) ∧
    devLogin stD (Except.ok ⟨false, d, e⟩) =
      (stD, [], ⟨false, none, none, some (DevErr.payload ⟨false, d, e⟩)⟩) ∧
    devLogin stD (Except.error nerr) =
      (stD, [], ⟨false, none, none, some (match nerr.responseData with
        | some p => DevErr.payload p
        | none => DevErr.message nerr.message)⟩) := by
  refine ⟨rfl, rfl, ?_, rfl⟩
  cases d with
  | none => rfl
  | some dd =>
      obtain ⟨tk, us⟩ := dd
      cases tk <;> rfl

/-- Claim C10: a successful provider exchange whose response carries a
token but no user stores a record synthesized from the caller-supplied
account info (id, displayName, email, and no photo), returns the token,
and the stored user reads back as exactly that synthesized record. -/
theorem C10_synthesized_user (st : LocalStorage) (ui : UserInfo) (t : String)
    (e : Option String) (ht : t ≠ "") :
    exchangeAzureToken st ui (Except.ok ⟨true, some ⟨some t, none⟩, e⟩) =
      (setUser (setToken st t) ⟨ui.id, ui.displayName, ui.email, none⟩, [],
        Except.ok t) ∧
    getUser (setUser (setToken st t) ⟨ui.id, ui.displayName, ui.email, none⟩) =
      some ⟨ui.id, ui.displayName, ui.email, none⟩ := by
  have hb : (t == "") = false := by simp [ht]
  exact ⟨by simp [exchangeAzureToken, hb], getUser_setUser _ _⟩

theorem C10_synthesized_user_witness :
    exchangeAzureToken [] ⟨"id1", "Dee", "d@x", none⟩
        (Except.ok ⟨true, some ⟨some "tok", none⟩, none⟩) =
      (setUser (setToken [] "tok") ⟨"id1", "Dee", "d@x", none⟩, [],
        Except.ok "tok") :=
  (C10_synthesized_user [] ⟨"id1", "Dee", "d@x", none⟩ "tok" none (by decide)).1

/-- Claim C8: getAccessToken returns the stored backend token in dev mode;
in provider mode it returns null with no instance or no cached account,
attempts silent acquisition for the first cached account, returns the
popup token exactly when the silent failure is interaction-required, and
returns null on any other silent failure. -/
theorem C8_get_access_token (devSt st : LocalStorage) (mi : Bool)
    (accs : List Account) (a : Account) (rest : List Account)
    (sil : TokenOutcome) (pop : Except Unit String) (t : String) :
    getAccessToken true devSt mi accs sil pop =
      ⟨Except.ok (getToken devSt), none, false⟩ ∧
    getAccessToken false st false accs sil pop = ⟨Except.ok none, none, false⟩ ∧
    getAccessToken false st true [] sil pop = ⟨Except.ok none, none, false⟩ ∧
    getAccessToken false st true (a :: rest) (TokenOutcome.ok t) pop =
      ⟨Except.ok (some t), some a, false⟩ ∧
    getAccessToken false st true (a :: rest) TokenOutcome.interactionRequired
        (Except.ok t) = ⟨Except.ok (some t), some a, true⟩ ∧
    getAccessToken false st true (a :: rest) TokenOutcome.otherError pop =
      ⟨Except.ok none, some a, false⟩ :=
  ⟨rfl, rfl, rfl, rfl, rfl, rfl⟩

/-- Claim C7: with developer bypass enabled, startup restores a stored
session-and-user pair to Authenticated with no devLogin call; otherwise it
performs exactly one devLogin with the configured default identity, whose
result decides Authenticated versus the development-login error; and the
MSAL client is never constructed in this mode. -/
theorem C7_dev_startup (env : InitEnv) (st : LocalStorage)
    (h : env.devEnabled = true) :
    (initializeMsal env st).msalConstructed = false ∧
    ((truthyStr (getStoredSession st) && (getUser st).isSome) = true →
      (initializeMsal env st).devCalls = [] ∧
      (initializeMsal env st).state.isAuthenticated = true ∧
      (initializeMsal env st).state.userData = getUser st) ∧
    ((truthyStr (getStoredSession st) && (getUser st).isSome) = false →
      (initializeMsal env st).devCalls = [(env.devEmail, env.devDisplay)] ∧
      (initializeMsal env st).state.isAuthenticated =
        (devLogin st env.devResp).2.2.success ∧
      ((devLogin st env.devResp).2.2.success = true →
        (initializeMsal env st).state.userData = (devLogin st env.devResp).2.2.user ∧
        (initializeMsal env st).state.error = none) ∧
      ((devLogin st env.devResp).2.2.success = false →
        (initializeMsal env st).state.error = some "Development login failed")) := by
  rcases hdl : devLogin st env.devResp with ⟨st1, ev, res⟩
  by_cases hc : (truthyStr (getStoredSession st) && (getUser st).isSome) = true
  · refine ⟨by simp [initializeMsal, h, hc], fun _ => ?_, fun hcf => ?_⟩
    · exact ⟨by simp [initializeMsal, h, hc], by simp [initializeMsal, h, hc],
        by simp [initializeMsal, h, hc]⟩
    · rw [hc] at hcf
      exact absurd hcf (by decide)
  · have hcf : (truthyStr (getStoredSession st) && (getUser st).isSome) = false := by
      simpa using hc
    by_cases hs : res.success = true
    · refine ⟨by simp [initializeMsal, h, hcf, hdl, hs, initialState], fun hct => ?_,
        fun _ => ⟨by simp [initializeMsal, h, hcf, hdl, hs, initialState],
          by simp [initializeMsal, h, hcf, hdl, hs, initialState],
          fun _ => ⟨by simp [initializeMsal, h, hcf, hdl, hs, initialState],
            by simp [initializeMsal, h, hcf, hdl, hs, initialState]⟩,
          fun hsf => ?_⟩⟩
      · rw [hcf] at hct
        exact absurd hct (by decide)
      · simp [hs] at hsf
    · have hsf : res.success = false := by simpa using hs
      refine ⟨by simp [initializeMsal, h, hcf, hdl, hsf, initialState], fun hct => ?_,
        fun _ => ⟨by simp [initializeMsal, h, hcf, hdl, hsf, initialState],
          by simp [initializeMsal, h, hcf, hdl, hsf, initialState],
          fun hst => ?_,
          fun _ => by simp [initializeMsal, h, hcf, hdl, hsf, initialState]⟩⟩
      · rw [hcf] at hct
        exact absurd hct (by decide)
      · simp [hsf] at hst

/-- A concrete dev-mode startup environment with no stored session and a
failing network, for the C7 witness. -/
def envDev : InitEnv :=
  { devEnabled := true, devEmail := "dev@local.test", devDisplay := "Developer",
    devResp := Except.error ⟨none, "network down"⟩, msalAlready := false,
    initThrows := false, redirect := Except.ok none,
    redirectResp := Except.error ⟨none, ""⟩, accounts := [],
    cachedResp := Except.error ⟨none, ""⟩ }

theorem C7_dev_startup_witness :
    (initializeMsal envDev []).msalConstructed = false ∧
    (initializeMsal envDev []).devCalls = [("dev@local.test", "Developer")] :=
  ⟨(C7_dev_startup envDev [] rfl).1,
    ((C7_dev_startup envDev [] rfl).2.2 (by decide)).1⟩

/-- Claim C6: every run of startup resolution (initializeMsal) and of
login() — restored session, dev login success or failure, early returns,
exchange outcomes, and thrown or caught errors alike — finishes with the
loading flag false. -/
theorem C6_loading_false (ienv : InitEnv) (st1 : LocalStorage) (lenv : LoginEnv)
    (st2 : LocalStorage) (s : SessionState) :
    (initializeMsal ienv st1).state.loading = false ∧
    (login lenv st2 s).1.loading = false := by
  constructor
  · unfold initializeMsal
    repeat' split <;> try rfl
  · unfold login
    repeat' split <;> try rfl
